import Mathlib

/-!
Shallow embedding of the fleet management system
(`src/fleet_management_system/src`): the navigation graph
(`models/nav_graph.py`), the robot state machine (`models/robot.py`) and the
traffic manager (`controllers/traffic_manager.py`), together with theorems
checking the design document's claims about them.

Python values are embedded as follows: Python ints become `Int` (list indices
keep Python's negative-index semantics through `pyListGet`/`pyIdx`), floats
become `ℚ` (with `numpy.sqrt` passed as an oracle parameter where its exact
value matters), dicts become insertion-ordered association lists with the
`dGet`/`dSet`/`dDel`/`dContains` operations, and code that can raise returns
`Except PyErr`.
-/

/-- A Python exception, reduced to the kinds the modelled code can raise. -/
inductive PyErr : Type
  | indexError
  | keyError
deriving Repr, DecidableEq

/-- Lookup in a Python dict modelled as an insertion-ordered association
list: the value of the first (and, with unique keys, only) entry whose key
matches. -/
def dGet {κ α : Type} [BEq κ] (d : List (κ × α)) (k : κ) : Option α :=
  (d.find? (fun e => e.1 == k)).map (fun e => e.2)

/-- Python `k in d` for a dict. -/
def dContains {κ α : Type} [BEq κ] (d : List (κ × α)) (k : κ) : Bool :=
  (dGet d k).isSome

/-- Python `d[k] = v`: replace the value in place when the key is present
(keeping insertion order), otherwise append a new entry. -/
def dSet {κ α : Type} [BEq κ] (d : List (κ × α)) (k : κ) (v : α) :
    List (κ × α) :=
  if dContains d k then
    d.map (fun e => if e.1 == k then (e.1, v) else e)
  else
    d ++ [(k, v)]

/-- Python `del d[k]` (the modelled callers only delete present keys). -/
def dDel {κ α : Type} [BEq κ] (d : List (κ × α)) (k : κ) : List (κ × α) :=
  d.filter (fun e => !(e.1 == k))

/-- The dict invariant: no key occurs twice in the association list. -/
def DictKeysUnique {κ α : Type} (d : List (κ × α)) : Prop :=
  List.Pairwise (fun a b => a.1 ≠ b.1) d

/-- Python list indexing `l[i]` for an `Int` index: nonnegative indices read
from the front, negative indices of magnitude at most the length read from
the back, and anything else is an `IndexError` (`none`). -/
def pyListGet {α : Type} (l : List α) (i : Int) : Option α :=
  if 0 ≤ i then l.get? i.toNat
  else if i.natAbs ≤ l.length then l.get? (l.length - i.natAbs)
  else none

/-- The effective nonnegative position addressed by Python index `i` in a
list of length `len`, when in range. -/
def pyIdx (len : Nat) (i : Int) : Option Nat :=
  if 0 ≤ i then (if i.toNat < len then some i.toNat else none)
  else if i.natAbs ≤ len then some (len - i.natAbs)
  else none

/-- Python `int(q)`: truncation toward zero. -/
def pyInt (q : ℚ) : Int :=
  if q < 0 then -(Int.floor (-q)) else Int.floor q

/-- The state of `TrafficManager` (`controllers/traffic_manager.py`):
`lane_occupancy` maps a lane index to the single robot id holding it;
`vertex_occupancy` maps a vertex index to a Python list of robot ids. -/
structure TrafficManagerState : Type where
  lane_occupancy : List (Nat × Nat)
  vertex_occupancy : List (Nat × List Nat)
deriving Repr, DecidableEq

namespace TrafficManager

/-- Embeds `TrafficManager.occupy_lane`: deny when the lane is held by a different
robot, otherwise record the requester as its occupant and grant. -/
def occupy_lane (tm : TrafficManagerState) (lane_idx robot_id : Nat) :
    Bool × TrafficManagerState :=
  match dGet tm.lane_occupancy lane_idx with
  | some current_robot =>
    if current_robot ≠ robot_id then (false, tm)
    else (true, { tm with lane_occupancy := dSet tm.lane_occupancy lane_idx robot_id })
  | none => (true, { tm with lane_occupancy := dSet tm.lane_occupancy lane_idx robot_id })

/-- Embeds `TrafficManager.release_lane`: free the lane only when released by the
robot that holds it. -/
def release_lane (tm : TrafficManagerState) (lane_idx robot_id : Nat) :
    Bool × TrafficManagerState :=
  if dContains tm.lane_occupancy lane_idx ∧ dGet tm.lane_occupancy lane_idx = some robot_id then
    (true, { tm with lane_occupancy := dDel tm.lane_occupancy lane_idx })
  else (false, tm)

/-- Embeds `TrafficManager.can_use_lane`: the lane index is absent from the
occupancy dict, or its occupant is the requesting robot. The Python method
receives the robot object and reads `robot.id`; the embedding takes the id
directly. -/
def can_use_lane (tm : TrafficManagerState) (robot_id : Nat) (lane_idx : Nat) : Bool :=
  !(dContains tm.lane_occupancy lane_idx) || (dGet tm.lane_occupancy lane_idx == some robot_id)

/-- Embeds `TrafficManager.occupy_vertex`: ensure the vertex has an occupant list
and append the robot to it when not already present. Returns nothing and
never denies. -/
def occupy_vertex (tm : TrafficManagerState) (vertex_idx robot_id : Nat) :
    TrafficManagerState :=
  let current := match dGet tm.vertex_occupancy vertex_idx with
    | some l => l
    | none => []
  let updated := if current.contains robot_id then current else current ++ [robot_id]
  { tm with vertex_occupancy := dSet tm.vertex_occupancy vertex_idx updated }

/-- Embeds `TrafficManager.release_vertex`: remove the robot from the vertex's
occupant list, dropping the entry when the list becomes empty. -/
def release_vertex (tm : TrafficManagerState) (vertex_idx robot_id : Nat) :
    TrafficManagerState :=
  match dGet tm.vertex_occupancy vertex_idx with
  | some l =>
    if l.contains robot_id then
      let l2 := l.erase robot_id
      if l2 = [] then { tm with vertex_occupancy := dDel tm.vertex_occupancy vertex_idx }
      else { tm with vertex_occupancy := dSet tm.vertex_occupancy vertex_idx l2 }
    else tm
  | none => tm

end TrafficManager

/-- Each entry of the traffic manager's `vertex_occupancy` table holds at
most one robot, and lane occupancy keys are unique (one occupant per lane). -/
def tmMutex (tm : TrafficManagerState) : Prop :=
  DictKeysUnique tm.lane_occupancy ∧ ∀ e ∈ tm.vertex_occupancy, e.2.length ≤ 1

/-- A vertex record as built by `NavGraph.load_from_json`: its Python `id`
(the enumeration index), coordinates, display name, charger flag, and the
transient occupying robot. -/
structure VertexRec : Type where
  id : Int
  x : ℚ
  y : ℚ
  name : String
  is_charger : Bool
  occupying_robot : Option Nat
deriving Repr, DecidableEq

/-- A lane record: directed endpoints (raw indices from the JSON, possibly
out of range), speed limit, transient occupying robot and blocked flag. -/
structure LaneRec : Type where
  from_vertex : Int
  to_vertex : Int
  speed_limit : ℚ
  occupying_robot : Option Nat
  is_blocked : Bool
deriving Repr, DecidableEq

/-- The `networkx.DiGraph` held by `NavGraph`: node set and directed edges,
each edge carrying its lane record as attributes. -/
structure PyGraph : Type where
  nodes : List Int
  edges : List (Int × Int × LaneRec)
deriving Repr, DecidableEq

namespace PyGraph

/-- Embeds `DiGraph.add_node`: append the node when absent. -/
def add_node (g : PyGraph) (n : Int) : PyGraph :=
  if g.nodes.contains n then g else { g with nodes := g.nodes ++ [n] }

/-- Embeds `DiGraph.add_edge`: silently add both endpoints as nodes when absent,
then add the edge (replacing the attributes of an existing parallel edge). -/
def add_edge (g : PyGraph) (a b : Int) (attrs : LaneRec) : PyGraph :=
  let g1 := (g.add_node a).add_node b
  if g1.edges.any (fun e => e.1 == a && e.2.1 == b) then
    { g1 with edges := g1.edges.map (fun e => if e.1 == a && e.2.1 == b then (a, b, attrs) else e) }
  else
    { g1 with edges := g1.edges ++ [(a, b, attrs)] }

/-- There is a directed edge (a lane) from `a` to `b` in the graph. -/
def hasEdge (g : PyGraph) (a b : Int) : Bool :=
  g.edges.any (fun e => e.1 == a && e.2.1 == b)

/-- The successors of `u` along non-blocked edges, in edge insertion order. -/
def succs (g : PyGraph) (u : Int) : List Int :=
  (g.edges.filter (fun e => e.1 == u && !e.2.2.is_blocked)).map (fun e => e.2.1)

end PyGraph

/-- The mutable state of a `NavGraph` object (`models/nav_graph.py`). -/
structure NavGraphState : Type where
  graph : PyGraph
  vertices : List VertexRec
  lanes : List LaneRec
  scale_factor : ℚ
  offset_x : ℚ
  offset_y : ℚ
  min_x : ℚ
  min_y : ℚ
  max_x : ℚ
  max_y : ℚ
  reserved_paths : List (Nat × List Int)
  destination_reservations : List (Int × Nat)
deriving Repr, DecidableEq

/-- The `attrs` dict of a vertex entry in the JSON definition: optional
`name` and `is_charger` keys. -/
structure PyVertexAttrs : Type where
  name : Option String
  is_charger : Option Bool
deriving Repr, DecidableEq

/-- One `[x, y, attrs]` vertex entry of a level. -/
structure PyVertexData : Type where
  x : ℚ
  y : ℚ
  attrs : PyVertexAttrs
deriving Repr, DecidableEq

/-- The `attrs` dict of a lane entry: optional `speed_limit`. -/
structure PyLaneAttrs : Type where
  speed_limit : Option ℚ
deriving Repr, DecidableEq

/-- One `[from, to, attrs]` lane entry of a level. -/
structure PyLaneData : Type where
  from_vertex : Int
  to_vertex : Int
  attrs : PyLaneAttrs
deriving Repr, DecidableEq

/-- One named level of the graph definition document. -/
structure PyLevelData : Type where
  vertices : List PyVertexData
  lanes : List PyLaneData
deriving Repr, DecidableEq

/-- A parsed graph definition document: the ordered `levels` dict. -/
structure PyGraphData : Type where
  levels : List (String × PyLevelData)
deriving Repr, DecidableEq

namespace NavGraph

/-- Embeds `NavGraph.calculate_bounds`: recompute the visualisation scale and
offsets from the vertex coordinates (screen 800x600, margins 100, padding 3).
Returns the state unchanged when there are no vertices. -/
def calculate_bounds (s : NavGraphState) : NavGraphState :=
  match s.vertices with
  | [] => s
  | v0 :: vs =>
    let minx := (vs.map (fun v => v.x)).foldl min v0.x
    let miny := (vs.map (fun v => v.y)).foldl min v0.y
    let maxx := (vs.map (fun v => v.x)).foldl max v0.x
    let maxy := (vs.map (fun v => v.y)).foldl max v0.y
    let dimx := maxx - minx + 3
    let dimy := maxy - miny + 3
    let sf := if 0 < dimx ∧ 0 < dimy then min ((800 - 2 * 100) / dimx) ((600 - 2 * 100) / dimy)
              else s.scale_factor
    { s with
      min_x := minx, min_y := miny, max_x := maxx, max_y := maxy,
      scale_factor := sf,
      offset_x := 100 + (800 - 2 * 100 - dimx * sf) / 2,
      offset_y := 100 + (600 - 2 * 100 - dimy * sf) / 2 }

/-- Embeds `NavGraph.load_from_json`, applied to an already-parsed document. Taking
the first level of an empty `levels` dict raises (`IndexError` on
`list(data['levels'].keys())[0]`). Vertices are enumerated into records and
graph nodes; lanes are appended and added as graph edges with no check that
their endpoints are defined vertex indices (`add_edge` silently creates
missing nodes). -/
def load_from_json (data : PyGraphData) : Except PyErr NavGraphState :=
  match data.levels with
  | [] => Except.error PyErr.indexError
  | (_, level) :: _ =>
    let vertices := level.vertices.enum.map (fun p =>
      { id := (p.1 : Int), x := p.2.x, y := p.2.y,
        name := p.2.attrs.name.getD ("v" ++ toString p.1),
        is_charger := p.2.attrs.is_charger.getD false,
        occupying_robot := none : VertexRec })
    let g0 := vertices.foldl (fun g v => g.add_node v.id) { nodes := [], edges := [] }
    let lanes := level.lanes.map (fun ld =>
      { from_vertex := ld.from_vertex, to_vertex := ld.to_vertex,
        speed_limit := ld.attrs.speed_limit.getD 0,
        occupying_robot := none, is_blocked := false : LaneRec })
    let g1 := lanes.foldl (fun g l => g.add_edge l.from_vertex l.to_vertex l) g0
    Except.ok (calculate_bounds
      { graph := g1, vertices := vertices, lanes := lanes,
        scale_factor := 50, offset_x := 300, offset_y := 300,
        min_x := 0, min_y := 0, max_x := 0, max_y := 0,
        reserved_paths := [], destination_reservations := [] })

/-- Embeds `NavGraph.get_scaled_position` at default zoom (the in-scope callers in
`robot.py` use the one-argument form): scale the vertex coordinates and
truncate to ints. `none` is the `IndexError` of `self.vertices[vertex_id]`. -/
def get_scaled_position (s : NavGraphState) (vertex_id : Int) : Option (ℚ × ℚ) :=
  (pyListGet s.vertices vertex_id).map (fun v =>
    ((pyInt ((v.x - s.min_x) * s.scale_factor + s.offset_x) : Int),
     (pyInt ((v.y - s.min_y) * s.scale_factor + s.offset_y) : Int)))

end NavGraph

/-- Breadth-first search working queue step: each queue entry is a path
stored in reverse (current vertex first, start last); `visited` holds every
vertex ever enqueued. Dequeue a path; if its head is the goal, return the
path in forward order, otherwise enqueue its unvisited successors. -/
def bfsAux (g : PyGraph) (goal : Int) :
    Nat → List (List Int) → List Int → Option (List Int)
  | 0, _, _ => none
  | Nat.succ fuel, queue, visited =>
    match queue with
    | [] => none
    | p :: rest =>
      match p with
      | [] => bfsAux g goal fuel rest visited
      | u :: _ =>
        if u == goal then some p.reverse
        else
          let nexts := (g.succs u).filter (fun v => !(visited.contains v))
          bfsAux g goal fuel (rest ++ nexts.map (fun v => v :: p)) (visited ++ nexts)

/-- Modelled from the spec: `find_path_astar` is imported by
`models/nav_graph.py` from `utils/helpers.py`, but that module's source does
not define it. The spec describes `shortestPath(start, goal)` as a graph
search returning an ordered vertex sequence or no path, excluding blocked
lanes, with breadth-first search sufficient in the unweighted case; it is
embedded here as a breadth-first search over the graph's non-blocked edges. -/
def find_path_astar (g : PyGraph) (start_vertex end_vertex : Int) :
    Option (List Int) :=
  bfsAux g end_vertex (g.nodes.length + g.edges.length + 2) [[start_vertex]] [start_vertex]

namespace NavGraph

/-- The guard at the top of `NavGraph.get_shortest_path`: a caller that
passes a robot id is denied when the destination is reserved for a
different robot. -/
def dest_denied (s : NavGraphState) (end_vertex : Int) (robot_id : Option Nat) : Bool :=
  match robot_id with
  | some rid =>
    match dGet s.destination_reservations end_vertex with
    | some r => r != rid
    | none => false
  | none => false

/-- Embeds `NavGraph.get_shortest_path`: refuse when the destination is
destination-reserved by a different robot, otherwise run the path search and
turn a falsy (absent or empty) result into `none`. -/
def get_shortest_path (s : NavGraphState) (start_vertex end_vertex : Int)
    (robot_id : Option Nat) : Option (List Int) :=
  if dest_denied s end_vertex robot_id then none
  else
    match find_path_astar s.graph start_vertex end_vertex with
    | none => none
    | some [] => none
    | some (v :: p) => some (v :: p)

/-- Embeds `NavGraph.is_vertex_available`: a vertex destination-reserved by some
robot is available exactly to that robot, with no further checks; otherwise
an occupied vertex is available only to its occupant; otherwise the vertex
must not lie on another robot's reserved path. -/
def is_vertex_available (s : NavGraphState) (vertex_id : Int) (robot_id : Nat) :
    Except PyErr Bool :=
  match dGet s.destination_reservations vertex_id with
  | some r => Except.ok (r == robot_id)
  | none =>
    match pyListGet s.vertices vertex_id with
    | none => Except.error PyErr.indexError
    | some v =>
      match v.occupying_robot with
      | some r => Except.ok (r == robot_id)
      | none =>
        Except.ok (!(s.reserved_paths.any (fun e => e.1 ≠ robot_id && e.2.contains vertex_id)))

/-- Embeds `NavGraph.reserve_vertex`: indices at least the vertex count are denied
up front; any other index is used to read `self.vertices[vertex_id]` with
Python list-index semantics (negative indices address from the back; too
negative raises `IndexError`); a free vertex is granted and recorded, an
occupied one is granted only to its current occupant. -/
def reserve_vertex (s : NavGraphState) (vertex_id : Int) (robot_id : Nat) :
    Except PyErr (Bool × NavGraphState) :=
  if (s.vertices.length : Int) ≤ vertex_id then Except.ok (false, s)
  else
    match pyIdx s.vertices.length vertex_id, pyListGet s.vertices vertex_id with
    | some pos, some v =>
      match v.occupying_robot with
      | none =>
        Except.ok (true,
          { s with vertices := s.vertices.set pos { v with occupying_robot := some robot_id } })
      | some r => Except.ok (r == robot_id, s)
    | _, _ => Except.error PyErr.indexError

/-- Embeds `NavGraph.reserve_lane`: scan the lane list for the first lane with the
given endpoints; grant a free, unblocked lane and record the occupant;
otherwise grant only when the requester already holds it. -/
def reserve_lane (s : NavGraphState) (from_vertex to_vertex : Int) (robot_id : Nat) :
    Bool × NavGraphState :=
  match s.lanes.findIdx? (fun l => l.from_vertex == from_vertex && l.to_vertex == to_vertex) with
  | none => (false, s)
  | some i =>
    match s.lanes.get? i with
    | none => (false, s)
    | some l =>
      if l.occupying_robot = none ∧ l.is_blocked = false then
        (true, { s with lanes := s.lanes.set i { l with occupying_robot := some robot_id } })
      else (l.occupying_robot == some robot_id, s)

/-- Embeds `NavGraph.reserve_path` (the second, overriding definition in the
source): reject an empty path, a destination already reserved for a
different robot, or any overlap between the path's tail and the tail of
another robot's reserved path; otherwise record the path and the
destination reservation, reserve the path's first vertex ignoring its
grant result (but propagating its possible `IndexError`), and report
success. -/
def reserve_path (s : NavGraphState) (robot_id : Nat) (path : List Int) :
    Except PyErr (Bool × NavGraphState) :=
  match path with
  | [] => Except.ok (false, s)
  | p0 :: rest =>
    let end_vertex := (p0 :: rest).getLast (List.cons_ne_nil p0 rest)
    if dContains s.destination_reservations end_vertex ∧
        dGet s.destination_reservations end_vertex ≠ some robot_id then
      Except.ok (false, s)
    else if s.reserved_paths.any (fun e =>
        e.1 ≠ robot_id && rest.any (fun v => e.2.drop 1 |>.contains v)) then
      Except.ok (false, s)
    else
      let s1 := { s with
        reserved_paths := dSet s.reserved_paths robot_id (p0 :: rest),
        destination_reservations := dSet s.destination_reservations end_vertex robot_id }
      match reserve_vertex s1 p0 robot_id with
      | Except.error e => Except.error e
      | Except.ok (_, s2) => Except.ok (true, s2)

/-- Embeds `NavGraph.release_vertex`. Its guard is Python `vertex_id in
self.vertices`, a membership test of the integer index in the list of vertex
record dicts; an int never compares equal to a dict, so the test is
constantly false and the body is unreachable. -/
def release_vertex (s : NavGraphState) (vertex_id : Int) (robot_id : Nat) :
    Bool × NavGraphState :=
  if s.vertices.any (fun _ => false) then
    match pyListGet s.vertices vertex_id, pyIdx s.vertices.length vertex_id with
    | some v, some pos =>
      if v.occupying_robot == some robot_id then
        (true, { s with vertices := s.vertices.set pos { v with occupying_robot := none } })
      else (false, s)
    | _, _ => (false, s)
  else (false, s)

/-- Embeds `NavGraph.release_lane`: clear the first lane with the given endpoints
that is held by the releasing robot. -/
def release_lane (s : NavGraphState) (from_vertex to_vertex : Int) (robot_id : Nat) :
    Bool × NavGraphState :=
  match s.lanes.findIdx? (fun l =>
      l.from_vertex == from_vertex && l.to_vertex == to_vertex &&
      l.occupying_robot == some robot_id) with
  | none => (false, s)
  | some i =>
    match s.lanes.get? i with
    | none => (false, s)
    | some l => (true, { s with lanes := s.lanes.set i { l with occupying_robot := none } })

/-- Embeds `NavGraph.clear_path`: drop the robot's reserved path and, when its last
vertex is destination-reserved, that reservation. `path[-1]` raises on an
empty stored path. -/
def clear_path (s : NavGraphState) (robot_id : Nat) : Except PyErr NavGraphState :=
  match dGet s.reserved_paths robot_id with
  | none => Except.ok s
  | some path =>
    match path.getLast? with
    | none => Except.error PyErr.indexError
    | some last_vertex =>
      let d1 := if dContains s.destination_reservations last_vertex then
          dDel s.destination_reservations last_vertex
        else s.destination_reservations
      Except.ok { s with
        destination_reservations := d1,
        reserved_paths := dDel s.reserved_paths robot_id }

end NavGraph

/-- The robot state strings of `models/robot.py`: the five class constants
plus the literal "paused" string that `pause_movement` assigns. -/
inductive RobotPhase : Type
  | idle
  | moving
  | waiting
  | charging
  | completed
  | pausedState
deriving Repr, DecidableEq

/-- The mutable state of a `Robot` object. Positions are pixel coordinates
(`ℚ` standing for Python floats); `last_action_time` is the wall-clock stamp
taken at construction and never updated by `update`. -/
structure RobotState : Type where
  id : Nat
  current_vertex : Int
  color : Nat × Nat × Nat
  state : RobotPhase
  path : List Int
  current_path_index : Nat
  target_vertex : Option Int
  position : ℚ × ℚ
  target_position : ℚ × ℚ
  move_speed : ℚ
  last_action_time : ℚ
  paused : Bool
deriving Repr, DecidableEq

/-- The dict `Robot.update` returns each tick. -/
structure StatusUpdate : Type where
  robot_id : Nat
  state : RobotPhase
  position : Int
  event : Option String
deriving Repr, DecidableEq

namespace Robot

/-- Embeds `Robot.assign_task`: reject when busy, when any vertex record with the
destination's id is occupied (by anyone, the requester included), when no
path is found, or when `reserve_path` denies; only on the success branch are
the robot's path, cursor, target, state and target position written. The
`path[1]` and scaled-position lookups of the success branch raise when the
path has a single vertex or addresses a phantom vertex; this embedding
reports such a raise as `Except.error`, discarding the partially mutated
object state, which no claim examines. -/
def assign_task (r : RobotState) (nav : NavGraphState) (destination_vertex : Int) :
    Except PyErr (Bool × RobotState × NavGraphState) :=
  if r.state ≠ RobotPhase.idle ∧ r.state ≠ RobotPhase.completed then
    Except.ok (false, r, nav)
  else if nav.vertices.any (fun v => v.occupying_robot.isSome && v.id == destination_vertex) then
    Except.ok (false, r, nav)
  else
    match NavGraph.get_shortest_path nav r.current_vertex destination_vertex (some r.id) with
    | none => Except.ok (false, r, nav)
    | some path =>
      match NavGraph.reserve_path nav r.id path with
      | Except.error e => Except.error e
      | Except.ok (false, nav1) => Except.ok (false, r, nav1)
      | Except.ok (true, nav1) =>
        match pyListGet path 1 with
        | none => Except.error PyErr.indexError
        | some v1 =>
          match NavGraph.get_scaled_position nav1 v1 with
          | none => Except.error PyErr.indexError
          | some tp =>
            Except.ok (true,
              { r with
                path := path,
                current_path_index := 0,
                target_vertex := some destination_vertex,
                state := RobotPhase.moving,
                target_position := tp },
              nav1)

/-- Embeds `Robot.update`. Only a robot in the `MOVING` state with a nonempty path
does anything; every other state returns the robot unchanged with a
no-event status. `numpy.sqrt` is passed as the oracle `sqrtQ`, and the
time-windowed `traffic_manager.reserve_lane` call is the oracle `reserveTW`
(modelled from the spec: the source's `NavGraph` has no `traffic_manager`
attribute and the `TrafficManager` source defines no such `reserve_lane`;
the spec describes it as booking the lane until the expected arrival time
plus a safety gap, granting or denying); `now` stands for `time.time()`. -/
def update (reserveTW : Nat → Int → Int → ℚ → Bool) (sqrtQ : ℚ → ℚ) (now : ℚ)
    (nav : NavGraphState) (delta_time : ℚ) (r : RobotState) :
    Except PyErr (RobotState × StatusUpdate) :=
  if r.state = RobotPhase.moving ∧ r.path ≠ [] then
    let dx := r.target_position.1 - r.position.1
    let dy := r.target_position.2 - r.position.2
    let dist := sqrtQ (dx * dx + dy * dy)
    if dist < r.move_speed then
      match pyListGet r.path ((r.current_path_index + 1 : Nat) : Int) with
      | none => Except.error PyErr.indexError
      | some cv =>
        let r1 := { r with
          current_path_index := r.current_path_index + 1,
          position := r.target_position,
          current_vertex := cv }
        if r.path.length - 1 ≤ r1.current_path_index then
          let r2 := { r1 with state := RobotPhase.completed }
          Except.ok (r2,
            { robot_id := r2.id, state := r2.state, position := r2.current_vertex,
              event := some "reached_destination" })
        else
          match pyListGet r1.path ((r1.current_path_index + 1 : Nat) : Int) with
          | none => Except.error PyErr.indexError
          | some nv =>
            let arrival_time := now + dist / r1.move_speed
            if reserveTW r1.id r1.current_vertex nv arrival_time then
              match NavGraph.get_scaled_position nav nv with
              | none => Except.error PyErr.indexError
              | some tp =>
                let r2 := { r1 with target_position := tp }
                Except.ok (r2,
                  { robot_id := r2.id, state := r2.state, position := r2.current_vertex,
                    event := some ("moving_to_" ++ toString nv) })
            else
              let r2 := { r1 with state := RobotPhase.waiting }
              Except.ok (r2,
                { robot_id := r2.id, state := r2.state, position := r2.current_vertex,
                  event := some "waiting_for_clearance" })
    else
      let r2 := { r with position :=
        (r.position.1 + dx / dist * r.move_speed * delta_time,
         r.position.2 + dy / dist * r.move_speed * delta_time) }
      Except.ok (r2,
        { robot_id := r2.id, state := r2.state, position := r2.current_vertex,
          event := none })
  else
    Except.ok (r,
      { robot_id := r.id, state := r.state, position := r.current_vertex,
        event := none })

/-- Embeds `Robot.pause_movement`: set the paused flag and the literal "paused"
state string. -/
def pause_movement (r : RobotState) : RobotState :=
  { r with paused := true, state := RobotPhase.pausedState }

/-- Embeds `Robot.resume_movement`: only a paused robot resumes, to the "moving"
state string. -/
def resume_movement (r : RobotState) : RobotState :=
  if r.paused = false then r
  else { r with paused := false, state := RobotPhase.moving }

end Robot

/-- An empty navigation graph state, as concrete input for witnesses. -/
def cNavEmpty : NavGraphState :=
  { graph := { nodes := [], edges := [] }, vertices := [], lanes := [],
    scale_factor := 50, offset_x := 300, offset_y := 300,
    min_x := 0, min_y := 0, max_x := 0, max_y := 0,
    reserved_paths := [], destination_reservations := [] }

/-- An empty traffic manager state. -/
def cTmEmpty : TrafficManagerState :=
  { lane_occupancy := [], vertex_occupancy := [] }

/-- C7: `TrafficManager.can_use_lane(a, l)` returns true exactly when lane
`l` is unoccupied (absent from the occupancy table) or is already occupied
by `a` itself. -/
theorem can_use_lane_iff (tm : TrafficManagerState) (robot_id lane_idx : Nat) :
    TrafficManager.can_use_lane tm robot_id lane_idx = true ↔
      (dGet tm.lane_occupancy lane_idx = none ∨
       dGet tm.lane_occupancy lane_idx = some robot_id) := by
  unfold TrafficManager.can_use_lane dContains
  cases h : dGet tm.lane_occupancy lane_idx with
  | none => simp [h]
  | some r => simp [h]

/-- C9: when a vertex is destination-reserved by the requesting robot,
`NavGraph.is_vertex_available` answers true at once, whatever the vertex's
occupying-robot field or the other robots' reserved paths say. -/
theorem is_vertex_available_dest_short_circuit (s : NavGraphState) (vertex_id : Int)
    (robot_id : Nat) (h : dGet s.destination_reservations vertex_id = some robot_id) :
    NavGraph.is_vertex_available s vertex_id robot_id = Except.ok true := by
  unfold NavGraph.is_vertex_available
  rw [h]
  simp

/-- Concrete state for the C9 witness: vertex 0 is occupied by robot 5 but
destination-reserved by robot 3. -/
def c9State : NavGraphState :=
  { cNavEmpty with
    vertices := [{ id := 0, x := 0, y := 0, name := "v0", is_charger := false,
                   occupying_robot := some 5 }],
    destination_reservations := [(0, 3)] }

/-- C9 witness: in `c9State`, vertex 0 is reported available to robot 3 even
though robot 5 currently occupies it. -/
theorem is_vertex_available_dest_short_circuit_witness :
    (c9State.vertices.map (fun v => v.occupying_robot) = [some 5]) ∧
    NavGraph.is_vertex_available c9State 0 3 = Except.ok true :=
  ⟨by decide, is_vertex_available_dest_short_circuit c9State 0 3 (by decide)⟩

/-- C10: `NavGraph.reserve_vertex` only length-checks indices from above:
for `0 < n ≤ len(vertices)` the call at index `-n` behaves exactly as the
call at the nonnegative index `len - n` (Python negative list indexing),
while for `n > len(vertices)` it raises `IndexError` instead of returning a
denial. -/
theorem reserve_vertex_negative_indexing (s : NavGraphState) (robot_id n : Nat)
    (h : 0 < n) :
    (n ≤ s.vertices.length →
      NavGraph.reserve_vertex s (-(n : Int)) robot_id =
        NavGraph.reserve_vertex s ((s.vertices.length - n : Nat) : Int) robot_id) ∧
    (s.vertices.length < n →
      NavGraph.reserve_vertex s (-(n : Int)) robot_id = Except.error PyErr.indexError) := by
  have hnab : (-(n : Int)).natAbs = n := by simp
  constructor
  · intro hle
    have e1 : pyIdx s.vertices.length (-(n : Int)) = some (s.vertices.length - n) := by
      unfold pyIdx
      rw [if_neg (by omega), if_pos (by rw [hnab]; exact hle), hnab]
    have e2 : pyIdx s.vertices.length ((s.vertices.length - n : Nat) : Int) =
        some (s.vertices.length - n) := by
      unfold pyIdx
      rw [if_pos (by omega), if_pos (by omega)]
      simp
    have g1 : pyListGet s.vertices (-(n : Int)) = s.vertices.get? (s.vertices.length - n) := by
      unfold pyListGet
      rw [if_neg (by omega), if_pos (by rw [hnab]; exact hle), hnab]
    have g2 : pyListGet s.vertices ((s.vertices.length - n : Nat) : Int) =
        s.vertices.get? (s.vertices.length - n) := by
      unfold pyListGet
      rw [if_pos (by omega)]
      simp
    unfold NavGraph.reserve_vertex
    rw [if_neg (by omega), if_neg (by omega), e1, e2, g1, g2]
  · intro hlt
    have e1 : pyIdx s.vertices.length (-(n : Int)) = none := by
      unfold pyIdx
      rw [if_neg (by omega), if_neg (by rw [hnab]; omega)]
    have g1 : pyListGet s.vertices (-(n : Int)) = none := by
      unfold pyListGet
      rw [if_neg (by omega), if_neg (by rw [hnab]; omega)]
    unfold NavGraph.reserve_vertex
    rw [if_neg (by omega), e1, g1]

/-- Concrete state for the C10 witness: two free vertices. -/
def c10State : NavGraphState :=
  { cNavEmpty with
    vertices :=
      [{ id := 0, x := 0, y := 0, name := "v0", is_charger := false, occupying_robot := none },
       { id := 1, x := 1, y := 1, name := "v1", is_charger := false, occupying_robot := none }] }

/-- C10 witness: on a two-vertex graph, `reserve_vertex` at index `-1` acts
on position 1 exactly like the nonnegative call, and index `-3` raises. -/
theorem reserve_vertex_negative_indexing_witness :
    (NavGraph.reserve_vertex c10State (-((1 : Nat) : Int)) 4 =
      NavGraph.reserve_vertex c10State ((c10State.vertices.length - 1 : Nat) : Int) 4) ∧
    NavGraph.reserve_vertex c10State (-((3 : Nat) : Int)) 4 = Except.error PyErr.indexError :=
  ⟨(reserve_vertex_negative_indexing c10State 4 1 (by decide)).1 (by decide),
   (reserve_vertex_negative_indexing c10State 4 3 (by decide)).2 (by decide)⟩

/-- A one-vertex state for the C2 failing input: vertex 0 is free. -/
def c2State : NavGraphState :=
  { cNavEmpty with
    graph := { nodes := [0], edges := [] },
    vertices := [{ id := 0, x := 0, y := 0, name := "v0", is_charger := false,
                   occupying_robot := none }] }

/-- The same state after robot 7 successfully reserves vertex 0. -/
def c2Occupied : NavGraphState :=
  { c2State with
    vertices := [{ id := 0, x := 0, y := 0, name := "v0", is_charger := false,
                   occupying_robot := some 7 }] }

/-- C2: evaluating the code at the failing input. Robot 7's reservation of
vertex 0 is granted, but the subsequent `release_vertex(0, 7)` returns
failure and leaves the occupancy in place: the guard `vertex_id in
self.vertices` tests the integer against the vertex record dicts and is
never true, so no release ever happens. -/
theorem release_vertex_never_releases :
    NavGraph.reserve_vertex c2State 0 7 = Except.ok (true, c2Occupied) ∧
    NavGraph.release_vertex c2Occupied 0 7 = (false, c2Occupied) ∧
    c2Occupied.vertices.map (fun v => v.occupying_robot) = [some 7] := by
  exact ⟨rfl, rfl, rfl⟩

/-- C4 (amended): `Robot.update` never takes a robot out of the `WAITING`
state: a waiting robot is returned unchanged with a no-event status, for
every tick length, clock value and coordinator answer — the source contains
no waiting-timeout or replanning logic at all. -/
theorem update_leaves_waiting_unchanged (reserveTW : Nat → Int → Int → ℚ → Bool)
    (sqrtQ : ℚ → ℚ) (now : ℚ) (nav : NavGraphState) (delta_time : ℚ)
    (r : RobotState) (h : r.state = RobotPhase.waiting) :
    Robot.update reserveTW sqrtQ now nav delta_time r =
      Except.ok (r, { robot_id := r.id, state := r.state,
                      position := r.current_vertex, event := none }) := by
  unfold Robot.update
  rw [if_neg]
  intro hc
  rw [h] at hc
  exact absurd hc.1 (by simp)

/-- A concrete robot stuck in the `WAITING` state, mid-path. -/
def c4Robot : RobotState :=
  { id := 3, current_vertex := 1, color := (255, 0, 0), state := RobotPhase.waiting,
    path := [0, 1, 2], current_path_index := 1, target_vertex := some 2,
    position := (0, 0), target_position := (10, 0), move_speed := 10,
    last_action_time := 0, paused := false }

/-- C4 witness: the amended theorem applied to `c4Robot` with an
always-denying coordinator. -/
theorem update_leaves_waiting_unchanged_witness :
    Robot.update (fun _ _ _ _ => false) (fun q => q) 0 cNavEmpty 1 c4Robot =
      Except.ok (c4Robot, { robot_id := c4Robot.id, state := c4Robot.state,
                            position := c4Robot.current_vertex, event := none }) :=
  update_leaves_waiting_unchanged (fun _ _ _ _ => false) (fun q => q) 0 cNavEmpty 1 c4Robot rfl

/-- One simulation tick of `Robot.update` for `c4Robot`'s scenario (tick
length 1 time-unit, always-denying coordinator), keeping the robot state. -/
def stepRobot (r : RobotState) : RobotState :=
  match Robot.update (fun _ _ _ _ => false) (fun q => q) 0 cNavEmpty 1 r with
  | Except.ok (r1, _) => r1
  | Except.error _ => r

/-- C4 counterexample: a robot that entered `WAITING` is still `WAITING`
after 12 further ticks of one time-unit each — more than the claimed
timeout of 10 plus one tick — with its state bit-for-bit unchanged, so the
claimed timeout-replan transition does not exist. -/
theorem waiting_timeout_cex :
    c4Robot.state = RobotPhase.waiting ∧
    stepRobot^[12] c4Robot = c4Robot ∧
    (stepRobot^[12] c4Robot).state = RobotPhase.waiting := by
  refine ⟨rfl, ?_, ?_⟩ <;> decide

/-- When `NavGraph.reserve_path` returns a denial, the navigation graph
state is exactly the input state: every `False` return in the source happens
before any table is written. -/
theorem reserve_path_false_unchanged (s : NavGraphState) (robot_id : Nat)
    (path : List Int) (s' : NavGraphState)
    (h : NavGraph.reserve_path s robot_id path = Except.ok (false, s')) : s' = s := by
  match path with
  | [] =>
    simp only [NavGraph.reserve_path, Except.ok.injEq, Prod.mk.injEq] at h
    exact h.2.symm
  | p0 :: rest =>
    simp only [NavGraph.reserve_path] at h
    split at h
    · simp only [Except.ok.injEq, Prod.mk.injEq] at h
      exact h.2.symm
    · split at h
      · simp only [Except.ok.injEq, Prod.mk.injEq] at h
        exact h.2.symm
      · split at h
        · simp at h
        · simp at h

/-- C3: `Robot.assign_task` failure atomicity — whenever the call returns
failure (busy robot, occupied destination, destination reserved by another
robot, no path, or `reserve_path` denial), the robot's state, path, cursor
and target and the navigation graph's reservation and destination tables
are all returned unchanged. -/
theorem assign_task_failure_atomic (r : RobotState) (nav : NavGraphState)
    (destination_vertex : Int) (r' : RobotState) (nav' : NavGraphState)
    (h : Robot.assign_task r nav destination_vertex = Except.ok (false, r', nav')) :
    r' = r ∧ nav' = nav := by
  unfold Robot.assign_task at h
  split at h
  · simp only [Except.ok.injEq, Prod.mk.injEq] at h
    exact ⟨h.2.1.symm, h.2.2.symm⟩
  · split at h
    · simp only [Except.ok.injEq, Prod.mk.injEq] at h
      exact ⟨h.2.1.symm, h.2.2.symm⟩
    · split at h
      · simp only [Except.ok.injEq, Prod.mk.injEq] at h
        exact ⟨h.2.1.symm, h.2.2.symm⟩
      · rename_i path hpath
        split at h
        · exact absurd h (by simp)
        · rename_i nav1 hres
          simp only [Except.ok.injEq, Prod.mk.injEq] at h
          refine ⟨h.2.1.symm, ?_⟩
          rw [← h.2.2]
          exact reserve_path_false_unchanged nav r.id path nav1 hres
        · rename_i nav1 hres
          split at h
          · exact absurd h (by simp)
          · split at h
            · exact absurd h (by simp)
            · simp only [Except.ok.injEq, Prod.mk.injEq] at h
              exact absurd h.1 (by simp)

/-- A concrete idle robot at vertex 0 for the C3 witness. -/
def c3Robot : RobotState :=
  { id := 2, current_vertex := 0, color := (0, 255, 0), state := RobotPhase.idle,
    path := [], current_path_index := 0, target_vertex := none,
    position := (0, 0), target_position := (0, 0), move_speed := 10,
    last_action_time := 0, paused := false }

/-- C3 witness: on the empty graph no path to vertex 1 exists, the
assignment returns failure, and the theorem yields that robot and graph are
unchanged. -/
theorem assign_task_failure_atomic_witness :
    Robot.assign_task c3Robot cNavEmpty 1 = Except.ok (false, c3Robot, cNavEmpty) ∧
    (c3Robot = c3Robot ∧ cNavEmpty = cNavEmpty) :=
  ⟨rfl, assign_task_failure_atomic c3Robot cNavEmpty 1 c3Robot cNavEmpty rfl⟩

/-- Writing a key into a dict keeps its keys unique: an existing key is
overwritten in place, a missing one is appended. -/
theorem dSet_keysUnique {κ α : Type} [BEq κ] [LawfulBEq κ] {d : List (κ × α)}
    (h : DictKeysUnique d) (k : κ) (v : α) : DictKeysUnique (dSet d k v) := by
  unfold dSet
  split
  · refine List.Pairwise.map _ ?_ h
    intro a b hab
    by_cases ha : (a.1 == k) = true <;> by_cases hb : (b.1 == k) = true <;>
      simp only [ha, hb, if_pos, if_neg, Bool.false_eq_true, if_false] <;> exact hab
  · rename_i hc
    rw [DictKeysUnique, List.pairwise_append]
    refine ⟨h, List.pairwise_singleton _ _, ?_⟩
    intro a ha b hb
    rw [List.mem_singleton] at hb
    subst hb
    intro hak
    apply hc
    unfold dContains dGet
    cases hfind : List.find? (fun e => e.1 == k) d with
    | none =>
      rw [List.find?_eq_none] at hfind
      exact absurd (show (a.1 == k) = true by simp [hak]) (by simpa using hfind a ha)
    | some e =>
      rfl

/-- Deleting a key from a dict keeps its keys unique. -/
theorem dDel_keysUnique {κ α : Type} [BEq κ] {d : List (κ × α)}
    (h : DictKeysUnique d) (k : κ) : DictKeysUnique (dDel d k) :=
  List.Pairwise.filter _ h

/-- With unique keys, at most one dict entry matches any given key. -/
theorem keysUnique_filter_le_one {κ α : Type} [BEq κ] [LawfulBEq κ]
    {d : List (κ × α)} (h : DictKeysUnique d) (k : κ) :
    (d.filter (fun e => e.1 == k)).length ≤ 1 := by
  induction d with
  | nil => simp
  | cons e d ih =>
    rw [DictKeysUnique, List.pairwise_cons] at h
    by_cases he : (e.1 == k) = true
    · have hstep : List.filter (fun e => e.1 == k) (e :: d) =
          e :: List.filter (fun e => e.1 == k) d := by
        simp [List.filter_cons, he]
      rw [hstep]
      have hnil : d.filter (fun e => e.1 == k) = [] := by
        rw [List.filter_eq_nil_iff]
        intro b hb
        have hne := h.1 b hb
        simp only [eq_of_beq he] at hne
        simp [Ne.symm hne]
      rw [hnil]
      simp
    · have hstep : List.filter (fun e => e.1 == k) (e :: d) =
          List.filter (fun e => e.1 == k) d := by
        simp [List.filter_cons, he]
      rw [hstep]
      exact ih h.2

/-- The operation `NavGraph.reserve_vertex` never touches the destination table. -/
theorem reserve_vertex_dest_unchanged (s : NavGraphState) (vid : Int) (rid : Nat)
    (b : Bool) (s' : NavGraphState)
    (h : NavGraph.reserve_vertex s vid rid = Except.ok (b, s')) :
    s'.destination_reservations = s.destination_reservations := by
  unfold NavGraph.reserve_vertex at h
  split at h
  · simp only [Except.ok.injEq, Prod.mk.injEq] at h
    rw [← h.2]
  · split at h
    · split at h
      · simp only [Except.ok.injEq, Prod.mk.injEq] at h
        rw [← h.2]
      · simp only [Except.ok.injEq, Prod.mk.injEq] at h
        rw [← h.2]
    · simp at h

/-- The destination-claim table binds each vertex to at most one robot. -/
def destUnique (s : NavGraphState) : Prop :=
  DictKeysUnique s.destination_reservations

/-- The robots the destination table binds to vertex `v`. -/
def claimsOf (s : NavGraphState) (v : Int) : List Nat :=
  (s.destination_reservations.filter (fun e => e.1 == v)).map (fun e => e.2)

/-- C8: destination uniqueness — starting from a state whose destination
table binds each vertex to at most one robot, both `NavGraph.reserve_path`
and `NavGraph.clear_path` leave a state with the same property: no vertex
is destination-claimed by two robots. -/
theorem destination_uniqueness_preserved (s : NavGraphState) (robot_id : Nat)
    (path : List Int) (h : destUnique s) :
    (∀ b s', NavGraph.reserve_path s robot_id path = Except.ok (b, s') →
       destUnique s' ∧ ∀ v, (claimsOf s' v).length ≤ 1) ∧
    (∀ s', NavGraph.clear_path s robot_id = Except.ok s' →
       destUnique s' ∧ ∀ v, (claimsOf s' v).length ≤ 1) := by
  have final : ∀ t : NavGraphState, destUnique t →
      destUnique t ∧ ∀ v, (claimsOf t v).length ≤ 1 := by
    intro t ht
    refine ⟨ht, fun v => ?_⟩
    rw [claimsOf, List.length_map]
    exact keysUnique_filter_le_one ht v
  constructor
  · intro b s' hr
    apply final
    match path with
    | [] =>
      simp only [NavGraph.reserve_path, Except.ok.injEq, Prod.mk.injEq] at hr
      rw [← hr.2]
      exact h
    | p0 :: rest =>
      simp only [NavGraph.reserve_path] at hr
      split at hr
      · simp only [Except.ok.injEq, Prod.mk.injEq] at hr
        rw [← hr.2]
        exact h
      · split at hr
        · simp only [Except.ok.injEq, Prod.mk.injEq] at hr
          rw [← hr.2]
          exact h
        · split at hr
          · simp at hr
          · rename_i s2 hrv
            simp only [Except.ok.injEq, Prod.mk.injEq] at hr
            rw [← hr.2]
            rw [destUnique, reserve_vertex_dest_unchanged _ _ _ _ _ hrv]
            exact dSet_keysUnique h _ robot_id
  · intro s' hc
    apply final
    unfold NavGraph.clear_path at hc
    split at hc
    · simp only [Except.ok.injEq] at hc
      rw [← hc]
      exact h
    · split at hc
      · simp at hc
      · split at hc <;>
          (simp only [Except.ok.injEq] at hc; rw [← hc, destUnique])
        · exact dDel_keysUnique h _
        · exact h

/-- Concrete state for the C8 witness: robot 1 has reserved path `[0, 5]`
with destination 5. -/
def c8State : NavGraphState :=
  { cNavEmpty with
    reserved_paths := [(1, [0, 5])],
    destination_reservations := [(5, 1)] }

/-- C8 witness: the preservation theorem applied to `c8State` for robot 2
requesting path `[0, 5]` (denied: destination 5 already belongs to robot 1),
and the claim count of vertex 5 afterwards. -/
theorem destination_uniqueness_preserved_witness :
    destUnique c8State ∧ (claimsOf c8State 5).length ≤ 1 :=
  ((destination_uniqueness_preserved c8State 2 [0, 5]
      (by exact List.pairwise_singleton _ _)).1 false c8State
    (by rfl)).imp id (fun hv => hv 5)

/-- An `Option`-valued occupancy field holds at most one occupant. -/
theorem option_toList_length_le_one (o : Option Nat) : o.toList.length ≤ 1 := by
  cases o <;> simp

/-- Every vertex record and lane record of the navigation graph carries at
most one occupying robot (the field is a single optional reference). -/
def navMutex (s : NavGraphState) : Prop :=
  (∀ v ∈ s.vertices, v.occupying_robot.toList.length ≤ 1) ∧
  (∀ l ∈ s.lanes, l.occupying_robot.toList.length ≤ 1)

/-- The predicate `navMutex` holds of every navigation graph state. -/
theorem navMutex_always (s : NavGraphState) : navMutex s :=
  ⟨fun v _ => option_toList_length_le_one v.occupying_robot,
   fun l _ => option_toList_length_le_one l.occupying_robot⟩

/-- C1 (amended): mutual exclusion is preserved by the single-occupant
operations — `NavGraph.reserve_vertex`, `NavGraph.reserve_lane` and
`TrafficManager.occupy_lane` each keep every vertex and lane occupancy field
at one robot at most and the lane-occupancy table at one occupant per lane —
but `TrafficManager.occupy_vertex` is excluded: it appends the requester
unconditionally, so a vertex's occupant list can grow past one robot. -/
theorem mutual_exclusion_amended (nav : NavGraphState) (tm : TrafficManagerState)
    (vid f t : Int) (lidx rid : Nat) (h : navMutex nav ∧ tmMutex tm) :
    (∀ b nav', NavGraph.reserve_vertex nav vid rid = Except.ok (b, nav') →
       navMutex nav' ∧ tmMutex tm) ∧
    (navMutex (NavGraph.reserve_lane nav f t rid).2 ∧ tmMutex tm) ∧
    (navMutex nav ∧ tmMutex (TrafficManager.occupy_lane tm lidx rid).2) := by
  refine ⟨fun b nav' _ => ⟨navMutex_always nav', h.2⟩,
          ⟨navMutex_always _, h.2⟩,
          ⟨h.1, ?_, ?_⟩⟩
  · unfold TrafficManager.occupy_lane
    have hset : DictKeysUnique (dSet tm.lane_occupancy lidx rid) :=
      dSet_keysUnique h.2.1 lidx rid
    cases hl : dGet tm.lane_occupancy lidx with
    | some cur =>
      by_cases hc : cur ≠ rid
      · simpa [hl, hc] using h.2.1
      · simpa [hl, hc] using hset
    | none => simpa [hl] using hset
  · unfold TrafficManager.occupy_lane
    cases hl : dGet tm.lane_occupancy lidx with
    | some cur =>
      by_cases hc : cur ≠ rid
      · simpa [hl, hc] using h.2.2
      · simpa [hl, hc] using h.2.2
    | none => simpa [hl] using h.2.2

/-- C1 amended witness: the theorem applied to the empty states, robot 4,
vertex/lane index 0 and lane endpoints 0 → 1. -/
theorem mutual_exclusion_amended_witness :
    (navMutex (NavGraph.reserve_lane cNavEmpty 0 1 4).2 ∧ tmMutex cTmEmpty) ∧
    (navMutex cNavEmpty ∧ tmMutex (TrafficManager.occupy_lane cTmEmpty 0 4).2) :=
  ⟨(mutual_exclusion_amended cNavEmpty cTmEmpty 0 0 1 0 4
      ⟨navMutex_always cNavEmpty, List.Pairwise.nil, by simp [cTmEmpty]⟩).2.1,
   (mutual_exclusion_amended cNavEmpty cTmEmpty 0 0 1 0 4
      ⟨navMutex_always cNavEmpty, List.Pairwise.nil, by simp [cTmEmpty]⟩).2.2⟩

/-- C1 counterexample: starting from the empty traffic manager state, two
`occupy_vertex` calls by the distinct robots 1 and 2 leave vertex 0 with the
occupant list `[1, 2]` — two distinct robots hold the same vertex at once,
so `TrafficManager.occupy_vertex` does not preserve the at-most-one-occupant
predicate. -/
theorem mutual_exclusion_occupy_vertex_cex :
    (∀ e ∈ ({ lane_occupancy := [], vertex_occupancy := [] } :
        TrafficManagerState).vertex_occupancy, e.2.length ≤ 1) ∧
    dGet (TrafficManager.occupy_vertex
        (TrafficManager.occupy_vertex
          { lane_occupancy := [], vertex_occupancy := [] } 0 1) 0 2).vertex_occupancy 0 =
      some [1, 2] ∧
    ¬ (∀ e ∈ (TrafficManager.occupy_vertex
        (TrafficManager.occupy_vertex
          { lane_occupancy := [], vertex_occupancy := [] } 0 1) 0 2).vertex_occupancy,
        e.2.length ≤ 1) := by
  refine ⟨by decide, by decide, by decide⟩

/-- The method `calculate_bounds` only rewrites the numeric view fields; the lane list
survives unchanged. -/
theorem calculate_bounds_lanes (s : NavGraphState) :
    (NavGraph.calculate_bounds s).lanes = s.lanes := by
  unfold NavGraph.calculate_bounds
  cases s.vertices <;> rfl

/-- C6 (amended): `NavGraph.load_from_json` performs no range check on lane
endpoints — for every definition document with at least one level it
succeeds, and every lane of the first level, out-of-range references
included, is stored in the built graph; it fails only on a structurally
malformed document (an empty `levels` dict). -/
theorem load_accepts_any_lane_indices (data : PyGraphData) (nm : String)
    (level : PyLevelData) (rest : List (String × PyLevelData))
    (h : data.levels = (nm, level) :: rest) :
    (NavGraph.load_from_json data).toOption.map
        (fun s => s.lanes.map (fun l => (l.from_vertex, l.to_vertex))) =
      some (level.lanes.map (fun l => (l.from_vertex, l.to_vertex))) := by
  unfold NavGraph.load_from_json
  rw [h]
  simp only [Except.toOption, Option.map_some']
  rw [calculate_bounds_lanes]
  simp [List.map_map]

/-- The C6 failing-input document: two vertices but a lane `0 → 5`
referencing the undefined vertex index 5. -/
def c6Data : PyGraphData :=
  { levels := [("l1",
      { vertices :=
          [{ x := 0, y := 0, attrs := { name := some "A", is_charger := none } },
           { x := 1, y := 1, attrs := { name := some "B", is_charger := none } }],
        lanes := [{ from_vertex := 0, to_vertex := 5, attrs := { speed_limit := none } }] })] }

/-- C6 counterexample: loading `c6Data` — two vertices, one lane whose `to`
index 5 is out of range — succeeds instead of failing, and the out-of-range
lane is built into the graph (its endpoint silently added as a graph node). -/
theorem load_out_of_range_cex :
    (NavGraph.load_from_json c6Data).isOk = true ∧
    (NavGraph.load_from_json c6Data).toOption.map
        (fun s => (s.vertices.length, s.lanes.map (fun l => (l.from_vertex, l.to_vertex)),
                   s.graph.nodes)) =
      some (2, [((0 : Int), (5 : Int))], [0, 1, 5]) := by
  refine ⟨rfl, rfl⟩

/-- C6 witness: the amended theorem applied to `c6Data`. -/
theorem load_accepts_any_lane_indices_witness :
    (NavGraph.load_from_json c6Data).toOption.map
        (fun s => s.lanes.map (fun l => (l.from_vertex, l.to_vertex))) =
      some ([((0 : Int), (5 : Int))]) :=
  load_accepts_any_lane_indices c6Data "l1"
    { vertices :=
        [{ x := 0, y := 0, attrs := { name := some "A", is_charger := none } },
         { x := 1, y := 1, attrs := { name := some "B", is_charger := none } }],
      lanes := [{ from_vertex := 0, to_vertex := 5, attrs := { speed_limit := none } }] }
    [] rfl

/-- A search-queue entry: a path from `s` stored in reverse, its head being
the vertex currently reached, each step following an edge of the graph. -/
inductive RPath (g : PyGraph) (s : Int) : List Int → Prop
  | single : RPath g s [s]
  | cons {u v : Int} {rest : List Int} :
      RPath g s (u :: rest) → g.hasEdge u v = true → RPath g s (v :: u :: rest)

/-- Every successor delivered by `succs` lies across an edge of the graph. -/
theorem succs_hasEdge {g : PyGraph} {u v : Int} (h : v ∈ g.succs u) :
    g.hasEdge u v = true := by
  unfold PyGraph.succs at h
  rw [List.mem_map] at h
  obtain ⟨e, he, hv⟩ := h
  rw [List.mem_filter] at he
  unfold PyGraph.hasEdge
  rw [List.any_eq_true]
  refine ⟨e, he.1, ?_⟩
  have h1 := he.2
  simp only [Bool.and_eq_true] at h1 ⊢
  exact ⟨h1.1, by simp [hv]⟩

/-- Soundness of the search queue step: whenever every queue entry is a
reversed path from `s`, a successful search result is the reversal of a
reversed path from `s` whose head is the goal. -/
theorem bfsAux_sound (g : PyGraph) (s goal : Int) :
    ∀ (fuel : Nat) (queue : List (List Int)) (visited : List Int) (res : List Int),
      (∀ p ∈ queue, RPath g s p) →
      bfsAux g goal fuel queue visited = some res →
      ∃ p, RPath g s p ∧ p.head? = some goal ∧ res = p.reverse := by
  intro fuel
  induction fuel with
  | zero =>
    intro queue visited res hq h
    simp [bfsAux] at h
  | succ fuel ih =>
    intro queue visited res hq h
    match queue with
    | [] => simp [bfsAux] at h
    | p :: rest =>
      match p with
      | [] =>
        have himp := hq [] (List.mem_cons_self _ _)
        cases himp
      | u :: tail =>
        simp only [bfsAux] at h
        by_cases hg : (u == goal) = true
        · rw [if_pos hg] at h
          refine ⟨u :: tail, hq (u :: tail) (List.mem_cons_self _ _), ?_, ?_⟩
          · rw [List.head?_cons, eq_of_beq hg]
          · exact (Option.some.inj h).symm
        · rw [if_neg hg] at h
          refine ih _ _ res ?_ h
          intro q hqmem
          rw [List.mem_append] at hqmem
          cases hqmem with
          | inl hmem => exact hq q (List.mem_cons_of_mem _ hmem)
          | inr hmem =>
            rw [List.mem_map] at hmem
            obtain ⟨v, hvmem, rfl⟩ := hmem
            rw [List.mem_filter] at hvmem
            exact RPath.cons (hq (u :: tail) (List.mem_cons_self _ _)) (succs_hasEdge hvmem.1)

/-- The last element of a reversed path is the start vertex. -/
theorem RPath.last_eq {g : PyGraph} {s : Int} {p : List Int} (h : RPath g s p) :
    p.getLast? = some s := by
  induction h with
  | single => rfl
  | cons hp he ih =>
    rw [List.getLast?_cons_cons]
    exact ih

/-- Reversing a reversed path yields consecutive pairs each joined by a
graph edge. -/
theorem RPath.chain {g : PyGraph} {s : Int} {p : List Int} (h : RPath g s p) :
    List.Chain' (fun a b => g.hasEdge a b = true) p.reverse := by
  induction h with
  | single => simp
  | cons hp he ih =>
    rw [List.reverse_cons]
    refine List.Chain'.append ih (List.chain'_singleton _) ?_
    intro x hx y hy
    rw [List.getLast?_reverse] at hx
    simp only [List.head?_cons, Option.mem_def, Option.some.injEq] at hx hy
    rw [← hx, ← hy]
    exact he

/-- C5: path validity — any path returned by `NavGraph.get_shortest_path`
starts at the queried start vertex, ends at the queried goal vertex, and
each consecutive pair of its vertices is joined by an existing lane (edge)
of the graph. -/
theorem get_shortest_path_valid (s : NavGraphState) (a b : Int) (robot_id : Option Nat)
    (p : List Int) (h : NavGraph.get_shortest_path s a b robot_id = some p) :
    p.head? = some a ∧ p.getLast? = some b ∧
    List.Chain' (fun u v => s.graph.hasEdge u v = true) p := by
  unfold NavGraph.get_shortest_path at h
  split at h
  · exact absurd h (by simp)
  · split at h
    · exact absurd h (by simp)
    · exact absurd h (by simp)
    · rename_i v q hfp
      have hp : p = v :: q := (Option.some.inj h).symm
      unfold find_path_astar at hfp
      obtain ⟨rp, hrp, hhead, hrev⟩ := bfsAux_sound s.graph a b _ _ _ _
        (fun q0 hq0 => by
          rw [List.mem_singleton] at hq0
          rw [hq0]
          exact RPath.single) hfp
      subst hp
      rw [hrev]
      refine ⟨?_, ?_, RPath.chain hrp⟩
      · rw [List.head?_reverse]
        exact RPath.last_eq hrp
      · rw [List.getLast?_reverse]
        exact hhead

/-- The single lane of the C5 witness graph. -/
def c5Lane : LaneRec :=
  { from_vertex := 0, to_vertex := 1, speed_limit := 0,
    occupying_robot := none, is_blocked := false }

/-- The C5 witness state: two graph nodes joined by one lane `0 → 1`. -/
def c5Nav : NavGraphState :=
  { cNavEmpty with graph := { nodes := [0, 1], edges := [(0, 1, c5Lane)] } }

/-- C5 witness: the query `0 → 1` on `c5Nav` returns `[0, 1]`, and the
theorem certifies its endpoints and its edge chain. -/
theorem get_shortest_path_valid_witness :
    NavGraph.get_shortest_path c5Nav 0 1 none = some [0, 1] ∧
    (([0, 1] : List Int).head? = some 0 ∧ ([0, 1] : List Int).getLast? = some 1 ∧
     List.Chain' (fun u v => c5Nav.graph.hasEdge u v = true) [0, 1]) :=
  ⟨rfl, get_shortest_path_valid c5Nav 0 1 none [0, 1] rfl⟩
